import Mathlib

/-!
Shallow embedding of `src/compute_pipeline/src/main.rs`: a one-shot Vulkan
compute pipeline (device selection, pipeline construction, resource
allocation, descriptor binding, command recording, submission, fence wait,
buffer readback and PNG export).  Every definition below is transcribed from
the source; the few definitions that formalise the specification's own
wording instead are explicitly named `spec...` so they can be compared with
the source-derived ones.
-/

namespace ComputePipeline

/-! ## Device and queue-family model (main.rs lines 40-87) -/

/-- One entry of `phy_device.queue_family_properties()`: the queue count and
the capability flags the program inspects (`QueueFlags`).  Only the flags
relevant to the selection logic are modelled. -/
structure QueueFamilyProperties where
  queueCount : Nat
  graphics : Bool
  compute : Bool
  transfer : Bool
deriving DecidableEq

/-- A physical device as the program sees it: its name (printed only) and its
queue-family properties. -/
structure PhysicalDevice where
  deviceName : String
  queueFamilyProperties : List QueueFamilyProperties
deriving DecidableEq

/-- main.rs lines 63-68: `.queue_family_properties().iter().enumerate()
.position(|(_, q)| q.queue_flags.contains(QueueFlags::GRAPHICS))` — the index
of the first queue family whose flags contain GRAPHICS, if any. -/
def queueFamilyIndex (d : PhysicalDevice) : Option Nat :=
  d.queueFamilyProperties.findIdx? (fun q => q.graphics)

/-- main.rs lines 48-68: the program takes the FIRST enumerated device
unconditionally (`.next().expect("device not found")`) and then looks for a
GRAPHICS queue family on that device only; both `.expect` calls abort on
failure, modelled as `none`. -/
def selectDevice (devices : List PhysicalDevice) : Option (PhysicalDevice × Nat) :=
  match devices.head? with
  | none => none
  | some d =>
    match queueFamilyIndex d with
    | none => none
    | some i => some (d, i)

/-- Whether a device offers at least one queue family with the GRAPHICS
capability flag. -/
def hasGraphicsFamily (d : PhysicalDevice) : Bool :=
  d.queueFamilyProperties.any (fun q => q.graphics)

/-- The device-selection policy exactly as the spec words it: among ALL
enumerated devices, the first one offering at least one qualifying queue
family.  Kept separate from `selectDevice` (the source's behaviour) so the
two can be compared. -/
def specSelectDevice (devices : List PhysicalDevice) : Option PhysicalDevice :=
  devices.find? hasGraphicsFamily

/-- A compute-only device: its single queue family has COMPUTE and TRANSFER
but not GRAPHICS. -/
def computeOnlyDevice : PhysicalDevice :=
  { deviceName := "compute-only", queueFamilyProperties := [⟨1, false, true, true⟩] }

/-- A device whose single queue family has GRAPHICS (and COMPUTE and
TRANSFER). -/
def graphicsDevice : PhysicalDevice :=
  { deviceName := "graphics", queueFamilyProperties := [⟨1, true, true, true⟩] }

/-! ## Image extent and dispatch grid (main.rs lines 116-129 and 185) -/

/-- main.rs line 120: `extent: [1024, 1024, 1]` of the storage image. -/
def imageExtent : Nat × Nat × Nat := (1024, 1024, 1)

/-- main.rs line 185: `.dispatch([1024 / 8, 1024 / 8, 1])`.  The extent is
hardcoded to 1024×1024 in the source; the spec treats it as a configurable
parameter, so the division pattern is exposed over `w` and `h`.  Rust's `/`
on unsigned integers truncates, i.e. Nat floor division. -/
def dispatchGrid (w h : Nat) : Nat × Nat × Nat := (w / 8, h / 8, 1)

/-- The dispatch-count formula exactly as the spec words it:
`ceil(W/8) × ceil(H/8) × 1`.  Kept separate from `dispatchGrid` (the
source's floor division) so the two can be compared. -/
def specDispatchGrid (w h : Nat) : Nat × Nat × Nat :=
  ((w + 7) / 8, (h + 7) / 8, 1)

/-! ## Staging buffer (main.rs lines 133-146) -/

/-- The `BufferUsage` flags relevant to the staging buffer's creation. -/
structure BufferUsageFlags where
  transferSrc : Bool
  transferDst : Bool
  uniformBuffer : Bool
  storageBuffer : Bool
deriving DecidableEq

/-- main.rs line 136: `usage: BufferUsage::UNIFORM_BUFFER |
BufferUsage::TRANSFER_DST`. -/
def stagingBufferUsage : BufferUsageFlags :=
  { transferSrc := false, transferDst := true, uniformBuffer := true, storageBuffer := false }

/-- The staging-buffer usage exactly as the spec words it: copy-destination
(`TRANSFER_DST`) only.  Kept separate from `stagingBufferUsage` (the
source's flags) so the two can be compared. -/
def specStagingUsage : BufferUsageFlags :=
  { transferSrc := false, transferDst := true, uniformBuffer := false, storageBuffer := false }

/-- The `MemoryTypeFilter` flags relevant to the staging buffer's
allocation. -/
structure MemoryTypeFilterFlags where
  preferDevice : Bool
  preferHost : Bool
  hostSequentialWrite : Bool
  hostRandomAccess : Bool
deriving DecidableEq

/-- main.rs lines 140-141: `memory_type_filter: MemoryTypeFilter::PREFER_HOST
| MemoryTypeFilter::HOST_SEQUENTIAL_WRITE`. -/
def stagingMemoryFilter : MemoryTypeFilterFlags :=
  { preferDevice := false, preferHost := true, hostSequentialWrite := true,
    hostRandomAccess := false }

/-- main.rs line 144: the iterator `(0..1024 * 1024 * 4).map(|_| 0u8)` that
fills the staging buffer at creation, with the extent exposed as a parameter
(1024×1024 in the source). -/
def stagingBufferData (w h : Nat) : List Nat :=
  (List.range (w * h * 4)).map (fun _ => 0)

/-- Modelled from the spec: the external image crate's
`ImageBuffer::<Rgba<u8>, _>::from_raw(1024, 1024, bytes)` call at main.rs
line 204 (the crate is an external collaborator, "treated as a black box").
It reinterprets the byte buffer as a row-major w×h grid of 4-channel 8-bit
pixels and fails (`None`) when the buffer cannot supply the `w * h * 4`
bytes the grid requires. -/
def fromRaw (w h : Nat) (buf : List Nat) : Option (List Nat) :=
  if buf.length = w * h * 4 then some buf else none

/-! ## Recorded command sequence (main.rs lines 175-191) -/

/-- One recorded command of the builder chain. -/
inductive RecordedCommand where
  | bindPipelineCompute : RecordedCommand
  | bindDescriptorSets (firstSet : Nat) : RecordedCommand
  | dispatch (groups : Nat × Nat × Nat) : RecordedCommand
  | copyImageToBuffer (extent : Nat × Nat × Nat) : RecordedCommand
deriving DecidableEq

/-- main.rs lines 175-191: the builder records, in source order,
`bind_pipeline_compute`, `bind_descriptor_sets(Compute, layout, 0, set)`,
`dispatch([1024 / 8, 1024 / 8, 1])` and
`copy_image_to_buffer(CopyImageToBufferInfo::image_buffer(image, buf))`
(the `image_buffer` constructor copies the image's full extent). -/
def recordedCommands : List RecordedCommand :=
  [RecordedCommand.bindPipelineCompute,
   RecordedCommand.bindDescriptorSets 0,
   RecordedCommand.dispatch (1024 / 8, 1024 / 8, 1),
   RecordedCommand.copyImageToBuffer imageExtent]

/-! ## The straight-line step sequence of `main` and its fail-fast execution
(main.rs lines 28-208) -/

/-- The fallible operations of `main`, one constructor per `.expect(..)` or
`.unwrap()` call, in source order. -/
inductive Step where
  | loadLibrary : Step
  | createInstance : Step
  | enumerateForPrint : Step
  | enumerateDevices : Step
  | pickFirstDevice : Step
  | findQueueFamily : Step
  | createDevice : Step
  | getQueue : Step
  | loadShader : Step
  | getEntryPoint : Step
  | intoLayoutCreateInfo : Step
  | createLayout : Step
  | createPipeline : Step
  | createImage : Step
  | createImageView : Step
  | createBuffer : Step
  | getSetLayout : Step
  | createDescriptorSet : Step
  | createCommandBufferBuilder : Step
  | bindPipeline : Step
  | bindDescriptorSets : Step
  | dispatch : Step
  | copyImageToBuffer : Step
  | buildCommandBuffer : Step
  | thenExecute : Step
  | signalFenceAndFlush : Step
  | waitFence : Step
  | readBuffer : Step
  | fromRaw : Step
  | saveImage : Step
deriving DecidableEq

/-- The fallible steps of `main` in their source order (main.rs lines
29, 31, 40, 48, 51, 63, 72, 87, 96, 98, 103, 99, 107, 116, 131, 133, 148,
153, 168, 176, 178, 185, 187, 193, 196, 198, 201, 203, 204, 205). -/
def mainSteps : List Step :=
  [Step.loadLibrary, Step.createInstance, Step.enumerateForPrint,
   Step.enumerateDevices, Step.pickFirstDevice, Step.findQueueFamily,
   Step.createDevice, Step.getQueue, Step.loadShader, Step.getEntryPoint,
   Step.intoLayoutCreateInfo, Step.createLayout, Step.createPipeline,
   Step.createImage, Step.createImageView, Step.createBuffer,
   Step.getSetLayout, Step.createDescriptorSet,
   Step.createCommandBufferBuilder, Step.bindPipeline,
   Step.bindDescriptorSets, Step.dispatch, Step.copyImageToBuffer,
   Step.buildCommandBuffer, Step.thenExecute, Step.signalFenceAndFlush,
   Step.waitFence, Step.readBuffer, Step.fromRaw, Step.saveImage]

/-- The panic message of each step: the `.expect(..)` argument where one is
given in the source, otherwise Rust's generic panic prefix for a bare
`.unwrap()` (on `Option` or on `Result`; the runtime appends the error's
Debug form to the latter). -/
def errorMessage : Step → String
  | Step.loadLibrary => "no local Vulkan library/DLL"
  | Step.createInstance => "create instance failed"
  | Step.enumerateForPrint => "could not enumerate devices"
  | Step.enumerateDevices => "could not enumerate devices"
  | Step.pickFirstDevice => "device not found"
  | Step.findQueueFamily => "couldn't find a graphical queue family"
  | Step.createDevice => "fail to create device"
  | Step.getQueue => "called `Option::unwrap()` on a `None` value"
  | Step.loadShader => "failed to create shader module"
  | Step.getEntryPoint => "called `Option::unwrap()` on a `None` value"
  | Step.intoLayoutCreateInfo => "called `Result::unwrap()` on an `Err` value"
  | Step.createLayout => "layout creation error"
  | Step.createPipeline => "fail to create pipeline"
  | Step.createImage => "fail to create image"
  | Step.createImageView => "called `Result::unwrap()` on an `Err` value"
  | Step.createBuffer => "fail to create buffer"
  | Step.getSetLayout => "called `Option::unwrap()` on a `None` value"
  | Step.createDescriptorSet => "fail to create persistent descriptor set"
  | Step.createCommandBufferBuilder => "fail to create command buffer"
  | Step.bindPipeline => "fail to bind compute pipeline"
  | Step.bindDescriptorSets => "fail to bind descriptor sets"
  | Step.dispatch => "called `Result::unwrap()` on an `Err` value"
  | Step.copyImageToBuffer => "fail to set up the command buffer"
  | Step.buildCommandBuffer => "fail to build the command buffer"
  | Step.thenExecute => "called `Result::unwrap()` on an `Err` value"
  | Step.signalFenceAndFlush => "called `Result::unwrap()` on an `Err` value"
  | Step.waitFence => "called `Result::unwrap()` on an `Err` value"
  | Step.readBuffer => "called `Result::unwrap()` on an `Err` value"
  | Step.fromRaw => "called `Option::unwrap()` on a `None` value"
  | Step.saveImage => "called `Result::unwrap()` on an `Err` value"

/-- main.rs line 207: the confirmation line printed when every step
succeeded. -/
def successMessage : String := "Everything succeeded!"

/-- main.rs line 201: `future.wait(None)` — the timeout argument of the
fence wait is `None`, an unbounded wait. -/
def waitTimeout : Option Nat := none

/-- The outcome of one process run: the steps that executed to completion,
the exit status (Rust panics exit with status 101) and the final line
written (the panic diagnostic or the confirmation line). -/
structure ProcessOutcome where
  executed : List Step
  exitCode : Nat
  output : String
deriving DecidableEq

/-- Run a straight-line sequence of fallible steps under an environment
`env` saying which steps succeed: each step either completes and execution
continues, or fails and execution stops at once with that step as the
error.  This is Rust's `.expect` / `.unwrap` panic semantics. -/
def runFrom (env : Step → Bool) : List Step → List Step × Except Step Unit
  | [] => ([], Except.ok ())
  | s :: rest =>
    if env s then
      let r := runFrom env rest
      (s :: r.1, r.2)
    else
      ([], Except.error s)

/-- The whole process: run `mainSteps`; on success print the confirmation
line and exit 0, on the first failure print that step's diagnostic and exit
with Rust's panic status 101. -/
def runMain (env : Step → Bool) : ProcessOutcome :=
  match runFrom env mainSteps with
  | (tr, Except.ok _) => ⟨tr, 0, successMessage⟩
  | (tr, Except.error s) => ⟨tr, 101, errorMessage s⟩

/-! ## Helper lemmas on the step semantics -/

/-- If every step of `l` succeeds, running `l` executes all of it and
returns ok. -/
theorem runFrom_all_ok (env : Step → Bool) (l : List Step)
    (h : ∀ s ∈ l, env s = true) : runFrom env l = (l, Except.ok ()) := by
  induction l with
  | nil => rfl
  | cons s rest ih =>
    have hs : env s = true := h s (List.mem_cons_self s rest)
    have hrest := ih (fun t ht => h t (List.mem_cons_of_mem s ht))
    simp [runFrom, hs, hrest]

/-- If every step before `s` succeeds and `s` fails, running the sequence
executes exactly the steps before `s` and stops with error `s`. -/
theorem runFrom_first_error (env : Step → Bool) (pre : List Step) (s : Step)
    (post : List Step) (hpre : ∀ t ∈ pre, env t = true) (hs : env s = false) :
    runFrom env (pre ++ s :: post) = (pre, Except.error s) := by
  induction pre with
  | nil => simp [runFrom, hs]
  | cons t rest ih =>
    have ht : env t = true := hpre t (List.mem_cons_self t rest)
    have hrest := ih (fun u hu => hpre u (List.mem_cons_of_mem t hu))
    simp [runFrom, ht, hrest]

/-- The executed steps always form a `take`-prefix of the sequence run. -/
theorem runFrom_executed_take (env : Step → Bool) (l : List Step) :
    ∃ n, (runFrom env l).1 = l.take n := by
  induction l with
  | nil => exact ⟨0, rfl⟩
  | cons s rest ih =>
    by_cases hs : env s = true
    · obtain ⟨n, hn⟩ := ih
      exact ⟨n + 1, by simp [runFrom, hs, hn]⟩
    · exact ⟨0, by simp [runFrom, hs]⟩

/-- The executed steps of the whole process are those of `runFrom` on
`mainSteps`, in either outcome. -/
theorem runMain_executed (env : Step → Bool) :
    (runMain env).executed = (runFrom env mainSteps).1 := by
  unfold runMain
  rcases h : runFrom env mainSteps with ⟨tr, r⟩
  cases r with
  | ok u => cases u; simp
  | error s => simp

/-! ## Claim theorems -/

/-- C1: the staging buffer is read only after the fence wait has returned:
in every execution, whenever the buffer-read step executed at all, the
fence-wait step executed strictly before it, and the wait's timeout
argument is None (an unbounded wait). -/
theorem read_after_wait :
    waitTimeout = none ∧
    ∀ env : Step → Bool, Step.readBuffer ∈ (runMain env).executed →
      Step.waitFence ∈ (runMain env).executed ∧
      (runMain env).executed.indexOf Step.waitFence <
        (runMain env).executed.indexOf Step.readBuffer := by
  refine ⟨rfl, ?_⟩
  intro env hmem
  rw [runMain_executed] at hmem ⊢
  obtain ⟨n, hn⟩ := runFrom_executed_take env mainSteps
  rw [hn] at hmem ⊢
  have hlen : mainSteps.length = 30 := by decide
  have htake : mainSteps.take n = mainSteps.take (min n 30) := by
    rcases le_total n 30 with h | h
    · rw [min_eq_left h]
    · have h1 : mainSteps.take n = mainSteps :=
        (List.take_eq_self_iff mainSteps).mpr (by rw [hlen]; exact h)
      have h2 : mainSteps.take (min n 30) = mainSteps := by
        rw [min_eq_right h]
        exact (List.take_eq_self_iff mainSteps).mpr (by rw [hlen])
      rw [h1, h2]
  rw [htake] at hmem ⊢
  have key : ∀ m, m < 31 → Step.readBuffer ∈ mainSteps.take m →
      Step.waitFence ∈ mainSteps.take m ∧
      (mainSteps.take m).indexOf Step.waitFence <
        (mainSteps.take m).indexOf Step.readBuffer := by decide
  exact key (min n 30) (by omega) hmem

/-- C1 witness: `read_after_wait` applied to the all-success execution. -/
theorem read_after_wait_witness :
    Step.waitFence ∈ (runMain (fun _ => true)).executed ∧
    (runMain (fun _ => true)).executed.indexOf Step.waitFence <
      (runMain (fun _ => true)).executed.indexOf Step.readBuffer :=
  read_after_wait.2 (fun _ => true) (by decide)

/-- C4: every fallible step is terminal.  If every step succeeds, the whole
sequence executes, the confirmation line is printed and the exit status is
zero.  If a step fails (all steps before it having succeeded), the process
stops there with that step's diagnostic message and the non-zero panic
status 101, exactly the steps before the failing one executed, and neither
the failing step nor any later step executes. -/
theorem pipeline_fail_fast :
    (∀ env : Step → Bool, (∀ s ∈ mainSteps, env s = true) →
        runMain env = ⟨mainSteps, 0, successMessage⟩) ∧
    (∀ (env : Step → Bool) (pre post : List Step) (s : Step),
        mainSteps = pre ++ s :: post →
        (∀ t ∈ pre, env t = true) → env s = false →
        (runMain env).executed = pre ∧
        (runMain env).exitCode = 101 ∧
        (runMain env).exitCode ≠ 0 ∧
        (runMain env).output = errorMessage s ∧
        ∀ t ∈ s :: post, t ∉ (runMain env).executed) := by
  constructor
  · intro env h
    unfold runMain
    rw [runFrom_all_ok env mainSteps h]
  · intro env pre post s hsplit hpre hs
    have hrun : runFrom env mainSteps = (pre, Except.error s) := by
      rw [hsplit]
      exact runFrom_first_error env pre s post hpre hs
    have hout : runMain env = ⟨pre, 101, errorMessage s⟩ := by
      unfold runMain
      rw [hrun]
    have hnodup : mainSteps.Nodup := by decide
    rw [hsplit, List.nodup_append] at hnodup
    refine ⟨by simp [hout], by simp [hout], by simp [hout], by simp [hout], ?_⟩
    intro t ht hmem
    rw [hout] at hmem
    exact hnodup.2.2 hmem ht

/-- C4 witness: `pipeline_fail_fast` applied to the all-success environment
and to the environment in which image creation (the 14th step) fails. -/
theorem pipeline_fail_fast_witness :
    runMain (fun _ => true) = ⟨mainSteps, 0, successMessage⟩ ∧
    (runMain (fun t => !(t == Step.createImage))).executed = mainSteps.take 13 ∧
    (runMain (fun t => !(t == Step.createImage))).exitCode = 101 ∧
    (runMain (fun t => !(t == Step.createImage))).output = errorMessage Step.createImage := by
  have hfail := pipeline_fail_fast.2 (fun t => !(t == Step.createImage))
    (mainSteps.take 13) (mainSteps.drop 14) Step.createImage
    (by decide) (by decide) (by decide)
  exact ⟨pipeline_fail_fast.1 (fun _ => true) (by decide),
    hfail.1, hfail.2.1, hfail.2.2.2.1⟩

/-- C2 counterexample: at extent (9, 9) the source's dispatch formula
(floor division, `9 / 8 = 1`) yields (1, 1, 1), not the (2, 2, 1) the claim
demands, so the dispatch is not `ceil(W/8) × ceil(H/8) × 1` for all
W, H > 0. -/
theorem dispatch_not_ceil_at_9 :
    dispatchGrid 9 9 = (1, 1, 1) ∧ specDispatchGrid 9 9 = (2, 2, 1) ∧
    dispatchGrid 9 9 ≠ specDispatchGrid 9 9 := by
  decide

/-- C2 (amended): the recorded dispatch uses floor division,
`(W / 8, H / 8, 1)`; this agrees with `ceil(W/8) × ceil(H/8) × 1` exactly
when 8 divides both extents, and at the source's hardcoded extent
(1024, 1024) it is (128, 128, 1). -/
theorem dispatch_floor_div :
    dispatchGrid 1024 1024 = (128, 128, 1) ∧
    ∀ w h : Nat, 8 ∣ w → 8 ∣ h → dispatchGrid w h = specDispatchGrid w h := by
  refine ⟨by decide, ?_⟩
  rintro w h ⟨a, rfl⟩ ⟨b, rfl⟩
  simp only [dispatchGrid, specDispatchGrid, Prod.mk.injEq]
  exact ⟨by omega, by omega, trivial⟩

/-- C2 witness: `dispatch_floor_div` applied at the divisible extent
(16, 16). -/
theorem dispatch_floor_div_witness :
    dispatchGrid 16 16 = specDispatchGrid 16 16 :=
  dispatch_floor_div.2 16 16 (by decide) (by decide)

/-- C3 counterexample: with a compute-only device enumerated first and a
graphics-capable device second, the spec's policy (first device offering a
qualifying family) would return the second device, but the source aborts:
it takes the first enumerated device unconditionally. -/
theorem device_selection_not_first_qualifying :
    hasGraphicsFamily computeOnlyDevice = false ∧
    hasGraphicsFamily graphicsDevice = true ∧
    specSelectDevice [computeOnlyDevice, graphicsDevice] = some graphicsDevice ∧
    selectDevice [computeOnlyDevice, graphicsDevice] = none := by
  decide

/-- C3 (amended): selection takes the FIRST enumerated device
unconditionally; whenever that first device offers a GRAPHICS queue family
(equivalently, its first-qualifying-family index exists), selection
succeeds and returns that device with that index, regardless of the other
enumerated devices. -/
theorem device_selection_first_device_only :
    (∀ (d : PhysicalDevice) (rest : List PhysicalDevice) (i : Nat),
        queueFamilyIndex d = some i → selectDevice (d :: rest) = some (d, i)) ∧
    (∀ d : PhysicalDevice,
        hasGraphicsFamily d = true ↔ (queueFamilyIndex d).isSome = true) := by
  constructor
  · intro d rest i hq
    simp [selectDevice, hq]
  · intro d
    rw [hasGraphicsFamily, queueFamilyIndex, List.findIdx?_isSome]

/-- C3 witness: `device_selection_first_device_only` applied to a
graphics-capable first device followed by a compute-only one. -/
theorem device_selection_first_device_only_witness :
    selectDevice [graphicsDevice, computeOnlyDevice] = some (graphicsDevice, 0) :=
  device_selection_first_device_only.1 graphicsDevice [computeOnlyDevice] 0 (by decide)

/-- C8: queue-family selection requires the GRAPHICS flag specifically and
inspects only the first enumerated device: if every queue family of the
first device lacks GRAPHICS, selection fails, whatever the later devices
offer. -/
theorem first_device_without_graphics_aborts :
    ∀ (d : PhysicalDevice) (rest : List PhysicalDevice),
      hasGraphicsFamily d = false → selectDevice (d :: rest) = none := by
  intro d rest hg
  have hq : queueFamilyIndex d = none := by
    rw [queueFamilyIndex, List.findIdx?_eq_none_iff]
    intro q hqm
    rw [hasGraphicsFamily] at hg
    have hall := List.any_eq_false.mp hg
    simpa using hall q hqm
  simp [selectDevice, hq]

/-- C8 witness: `first_device_without_graphics_aborts` applied to a
compute-only first device even though the second enumerated device has a
GRAPHICS family. -/
theorem first_device_without_graphics_aborts_witness :
    hasGraphicsFamily computeOnlyDevice = false ∧
    hasGraphicsFamily graphicsDevice = true ∧
    selectDevice [computeOnlyDevice, graphicsDevice] = none :=
  ⟨by decide, by decide,
    first_device_without_graphics_aborts computeOnlyDevice [graphicsDevice] (by decide)⟩

/-- C5: the staging buffer holds exactly `W * H * 4` bytes, all zero
(4194304 bytes at the source's extent 1024×1024, 16 bytes at W=H=2), and in
the program order its creation precedes the submission. -/
theorem staging_buffer_zeroed_length :
    (∀ w h : Nat, (stagingBufferData w h).length = w * h * 4 ∧
      (stagingBufferData w h).all (fun b => b == 0) = true) ∧
    (stagingBufferData 1024 1024).length = 4194304 ∧
    (stagingBufferData 2 2).length = 16 ∧
    mainSteps.indexOf Step.createBuffer < mainSteps.indexOf Step.thenExecute := by
  have hlen : ∀ w h : Nat, (stagingBufferData w h).length = w * h * 4 := by
    intro w h
    simp [stagingBufferData]
  have hzero : ∀ w h : Nat, (stagingBufferData w h).all (fun b => b == 0) = true := by
    intro w h
    simp [stagingBufferData, List.all_eq_true]
  refine ⟨fun w h => ⟨hlen w h, hzero w h⟩, ?_, ?_, ?_⟩
  · rw [hlen]
  · rw [hlen]
  · decide

/-- C6 counterexample: the staging buffer's usage flags are not
copy-destination only — the source also sets `UNIFORM_BUFFER`. -/
theorem staging_usage_not_only_transfer_dst :
    stagingBufferUsage.uniformBuffer = true ∧
    stagingBufferUsage ≠ specStagingUsage := by
  decide

/-- C6 (amended): the staging buffer is created with usage flags
{uniform-buffer, copy-destination} (and no others modelled) and memory
preference prefer-host with host-sequential-write. -/
theorem staging_usage_and_memory :
    stagingBufferUsage.transferDst = true ∧
    stagingBufferUsage.uniformBuffer = true ∧
    stagingBufferUsage.transferSrc = false ∧
    stagingBufferUsage.storageBuffer = false ∧
    stagingMemoryFilter.preferHost = true ∧
    stagingMemoryFilter.hostSequentialWrite = true ∧
    stagingMemoryFilter.preferDevice = false ∧
    stagingMemoryFilter.hostRandomAccess = false := by
  decide

/-- C7: the recording contains exactly four commands, in the strict order
bind-compute-pipeline, bind-descriptor-set at set index 0, dispatch of the
workgroup grid, copy of the image into the buffer over the image's full
extent — and nothing else. -/
theorem recorded_command_order :
    recordedCommands.length = 4 ∧
    recordedCommands[0]? = some RecordedCommand.bindPipelineCompute ∧
    recordedCommands[1]? = some (RecordedCommand.bindDescriptorSets 0) ∧
    recordedCommands[2]? = some (RecordedCommand.dispatch (dispatchGrid 1024 1024)) ∧
    recordedCommands[3]? = some (RecordedCommand.copyImageToBuffer imageExtent) := by
  decide

/-- C9: 8 divides the reference extent 1024, so the integer division
1024 / 8 = 128 equals ceil(1024/8), the dispatched grid is (128, 128, 1),
and the 128×128 grid of 8×8 workgroups covers exactly the pixels of the
1024×1024 image: a pixel lies under some workgroup iff it lies in the
image, with no uncovered remainder. -/
theorem reference_dispatch_exact_coverage :
    8 ∣ 1024 ∧ 1024 / 8 = 128 ∧
    dispatchGrid 1024 1024 = specDispatchGrid 1024 1024 ∧
    dispatchGrid 1024 1024 = (128, 128, 1) ∧
    ∀ x y : Nat,
      (∃ i j : Nat, i < 128 ∧ j < 128 ∧
        8 * i ≤ x ∧ x < 8 * i + 8 ∧ 8 * j ≤ y ∧ y < 8 * j + 8)
        ↔ (x < 1024 ∧ y < 1024) := by
  refine ⟨by decide, by decide, by decide, by decide, ?_⟩
  intro x y
  constructor
  · rintro ⟨i, j, hi, hj, h1, h2, h3, h4⟩
    omega
  · rintro ⟨hx, hy⟩
    exact ⟨x / 8, y / 8, by omega, by omega, by omega, by omega, by omega, by omega⟩

/-- C10: reinterpreting the staging buffer as a 1024×1024 four-channel
8-bit pixel grid cannot fail: the buffer's length is exactly the
1024 * 1024 * 4 bytes the grid requires, so `fromRaw` returns `some`, never
`none`. -/
theorem from_raw_never_fails :
    (stagingBufferData 1024 1024).length = 1024 * 1024 * 4 ∧
    fromRaw 1024 1024 (stagingBufferData 1024 1024) =
      some (stagingBufferData 1024 1024) := by
  have hlen : (stagingBufferData 1024 1024).length = 1024 * 1024 * 4 := by
    rw [stagingBufferData, List.length_map, List.length_range]
  exact ⟨hlen, by rw [fromRaw, if_pos hlen]⟩

end ComputePipeline
